import Mathlib

/-!
Verification of the ClashVision Win Prediction Engine.

Shallow embedding of the two predictor units,
`app/ml/predictor_simple.py` (heuristic scorer) and `app/ml/predictor.py`
(learned-model orchestrator), together with the stats computation of
`app/api/v1/endpoints/players_simple.py`. Python floats are modelled as
rationals; each call to the ambient `random` module is modelled as an
explicit unit draw passed in as a parameter (fields of `Draws` and
`LiveDraws`), so the randomized functions become deterministic functions
of input plus draw stream, in the order the source consumes the draws.
-/

namespace ClashVision

/-- Player record as consumed by `WinPredictor.predict` in
`predictor_simple.py`: `player_data.get("trophies", 0)`,
`.get("wins", 0)`, `.get("losses", 0)` — the fields hold the values after
default-filling. -/
structure PlayerData where
  trophies : ℕ
  wins : ℕ
  losses : ℕ
deriving DecidableEq, Repr

/-- Battle record as consumed by `predict_live` / `_analyze_battle_state`:
`battle_data.get("time_remaining", ...)`, `.get("player_towers", 3)`,
`.get("opponent_towers", 3)`, `.get("elixir_advantage", 0)`; fields hold
post-default values. -/
structure BattleData where
  time_remaining : ℤ
  player_towers : ℤ
  opponent_towers : ℤ
  elixir_advantage : ℤ
deriving DecidableEq, Repr

/-- Feature mapping as consumed by `predictor.py`; fields hold the values
after the `.get(key, 0.0)` default-filling used at each read site. -/
structure FeatureSet where
  deck_synergy_score : ℚ
  elixir_efficiency : ℚ
  opponent_counter_score : ℚ
  skill_rating : ℚ
  recent_win_rate : ℚ
  average_elixir_cost : ℚ
deriving DecidableEq, Repr

/-- The five named influence weights returned by
`_analyze_influencing_factors`. -/
structure Factors where
  deck_synergy : ℚ
  elixir_efficiency : ℚ
  opponent_counter : ℚ
  player_skill : ℚ
  recent_performance : ℚ
deriving DecidableEq, Repr

/-- Unit draws consumed by one call of the simple `predict`, in source
order: line 46 noise on the probability, line 49 confidence, lines 53-57
the four `random.uniform` factors, line 143 the `random.choice` index. -/
structure Draws where
  noise : ℚ
  conf : ℚ
  deckSyn : ℚ
  elixirEff : ℚ
  oppCounter : ℚ
  recentPerf : ℚ
  choiceIdx : ℕ
deriving DecidableEq, Repr

/-- Draws consumed by one call of the simple `predict_live`, in source
order: line 85 probability, line 86 confidence, line 92 the
`random.randint(-2, 2)` elixir advantage. -/
structure LiveDraws where
  prob : ℚ
  conf : ℚ
  elixirAdv : ℤ
deriving DecidableEq, Repr

/-- `win_rate = player_wins / max(1, player_wins + player_losses)`
(predictor_simple.py line 39; identically players_simple.py line 87). -/
def winRate (wins losses : ℕ) : ℚ :=
  (wins : ℚ) / ((max 1 (wins + losses) : ℕ) : ℚ)

/-- `trophy_factor = min(1.0, player_trophies / 6000)`
(predictor_simple.py line 40; identically `skill_rating` at
players_simple.py line 93). -/
def trophyFactor (trophies : ℕ) : ℚ :=
  min 1 ((trophies : ℚ) / 6000)

/-- `_determine_battle_phase` (predictor_simple.py lines 168-177; the
same threshold chain at predictor.py lines 301-312, applied there to
`battle_data.get("time_remaining", 0)`). -/
def determineBattlePhase (time_remaining : ℤ) : String :=
  if time_remaining > 120 then "early_game"
  else if time_remaining > 60 then "mid_game"
  else if time_remaining > 0 then "late_game"
  else "overtime"

/-- `random.uniform(a, b)` for a unit draw `u`. -/
def uniformDraw (a b u : ℚ) : ℚ := a + (b - a) * u

/-- The fixed extra-recommendation pool of the simple
`_generate_recommendations` (predictor_simple.py lines 135-141). -/
def extraRecommendationPool : List String :=
  ["Cycle to your win condition",
   "Defend and counter-attack",
   "Build a strong push",
   "Use spells for maximum value",
   "Protect your towers"]

/-- Simple `_generate_recommendations` (predictor_simple.py lines
111-144): three fixed strings per probability band, one `random.choice`
extra (modelled by an index into the pool), then truncation `[:3]`. -/
def simpleGenerateRecommendations (win_probability : ℚ) (choiceIdx : ℕ) :
    List String :=
  let recommendations : List String :=
    if win_probability < 2/5 then
      ["Focus on defensive plays",
       "Look for positive elixir trades",
       "Play more conservatively"]
    else if win_probability > 7/10 then
      ["Maintain aggressive pressure",
       "Look for tower damage opportunities",
       "Keep up the momentum"]
    else
      ["Adapt to opponent\x27s strategy",
       "Monitor elixir carefully",
       "Stay flexible with your approach"]
  let extra :=
    extraRecommendationPool.getD (choiceIdx % extraRecommendationPool.length)
      "Cycle to your win condition"
  (recommendations ++ [extra]).take 3

/-- Result record of the simple `predict` (predictor_simple.py lines
63-75), numeric and list fields only; `input_features` and
`influencing_factors` are flattened into named fields. -/
structure SimplePrediction where
  win_probability : ℚ
  confidence : ℚ
  win_rate : ℚ
  trophy_factor : ℚ
  deck_synergy : ℚ
  elixir_efficiency : ℚ
  opponent_counter : ℚ
  player_skill : ℚ
  recent_performance : ℚ
  recommendations : List String
deriving DecidableEq, Repr

/-- Body of the simple `predict` after the readiness check
(predictor_simple.py lines 33-75), with the ambient random calls made
explicit as `d`. -/
def simplePredictCore (p : PlayerData) (d : Draws) : SimplePrediction :=
  let win_rate := winRate p.wins p.losses
  let trophy_factor := trophyFactor p.trophies
  let base_probability := win_rate * (3/5) + trophy_factor * (2/5)
  let win_probability :=
    max (1/10) (min (9/10) (base_probability + (d.noise - 1/2) * (3/10)))
  let confidence := 3/5 + d.conf * (3/10)
  { win_probability := win_probability
    confidence := confidence
    win_rate := win_rate
    trophy_factor := trophy_factor
    deck_synergy := uniformDraw (3/10) (9/10) d.deckSyn
    elixir_efficiency := uniformDraw (2/5) (4/5) d.elixirEff
    opponent_counter := uniformDraw (1/5) (7/10) d.oppCounter
    player_skill := win_rate
    recent_performance := uniformDraw (3/10) (4/5) d.recentPerf
    recommendations := simpleGenerateRecommendations win_probability d.choiceIdx }

/-- Error taxonomy of the engine: the `raise ValueError("Model not
ready")` paths, called `EngineNotReady` by the design. -/
inductive PredictError where
  | engineNotReady : PredictError
deriving DecidableEq, Repr

/-- Mutable predictor state relevant to the entry points: the `is_ready`
flag. -/
structure PredictorState where
  is_ready : Bool
deriving DecidableEq, Repr

/-- Constructor state of the simple predictor: `self.is_ready = True`
(predictor_simple.py line 13). -/
def mkSimplePredictor : PredictorState := ⟨true⟩

/-- Constructor state of the full predictor: `self.is_ready = False`
(predictor.py line 22). -/
def mkFullPredictor : PredictorState := ⟨false⟩

/-- `initialize` of the simple predictor sets `self.is_ready = True`
(predictor_simple.py lines 16-20). -/
def initializeSimple (_s : PredictorState) : PredictorState := ⟨true⟩

/-- `initialize` of the full predictor sets `is_ready` to whether model
setup succeeded (predictor.py lines 29-48: `True` on success, `False` in
the except branch). -/
def initializeFull (_s : PredictorState) (success : Bool) : PredictorState :=
  ⟨success⟩

/-- Simple `predict` entry point (predictor_simple.py lines 22-79): the
`if not self.is_ready: raise ValueError("Model not ready")` gate, then
the heuristic body. -/
def simplePredict (s : PredictorState) (p : PlayerData) (d : Draws) :
    Except PredictError SimplePrediction :=
  if s.is_ready then .ok (simplePredictCore p d)
  else .error .engineNotReady

/-- Simple `_generate_live_recommendations` (predictor_simple.py lines
146-166): a time-based item, a probability-based item, then always the
elixir-management reminder. -/
def simpleGenerateLiveRecommendations (win_probability : ℚ)
    (battle_data : BattleData) : List String :=
  let first :=
    if battle_data.time_remaining > 120 then "Learn opponent\x27s deck rotation"
    else if battle_data.time_remaining > 60 then "Build your main push"
    else "Go for decisive plays"
  let second :=
    if win_probability > 3/5 then "Maintain pressure"
    else "Focus on defense"
  [first, second, "Watch your elixir management"]

/-- Result record of the simple `predict_live` (predictor_simple.py
lines 98-105), with the `battle_analysis` fields flattened. -/
structure LivePrediction where
  win_probability : ℚ
  confidence : ℚ
  battle_time_remaining : ℤ
  player_towers : ℤ
  opponent_towers : ℤ
  elixir_advantage : ℤ
  current_phase : String
  recommendations : List String
deriving DecidableEq, Repr

/-- Simple `predict_live` entry point (predictor_simple.py lines 81-109):
no readiness gate; probability and confidence are built from the draws
alone, the analysis echoes `battle_data` with defaults. The unused
`player_tag` argument is kept to mirror the source signature. -/
def simplePredictLive (_player_tag : String) (battle_data : BattleData)
    (d : LiveDraws) : LivePrediction :=
  let win_probability := 1/2 + (d.prob - 1/2) * (3/5)
  let confidence := 3/5 + d.conf * (3/10)
  { win_probability := win_probability
    confidence := confidence
    battle_time_remaining := battle_data.time_remaining
    player_towers := battle_data.player_towers
    opponent_towers := battle_data.opponent_towers
    elixir_advantage := d.elixirAdv
    current_phase := determineBattlePhase battle_data.time_remaining
    recommendations :=
      simpleGenerateLiveRecommendations win_probability battle_data }

/-- `_calculate_confidence` of the full predictor (predictor.py lines
207-220): `min(1.0, max(0.0, 2 * abs(prob - 0.5)))`. -/
def calculateConfidence (prob : ℚ) : ℚ :=
  min 1 (max 0 (2 * |prob - 1/2|))

/-- `_analyze_influencing_factors` (predictor.py lines 222-245): read the
five signals with default `0.0`, and when the sum of their absolute
values is positive divide each SIGNED value by that sum; otherwise return
the raw values unchanged. -/
def analyzeInfluencingFactors (f : FeatureSet) : Factors :=
  let total :=
    |f.deck_synergy_score| + |f.elixir_efficiency| +
    |f.opponent_counter_score| + |f.skill_rating| + |f.recent_win_rate|
  if 0 < total then
    { deck_synergy := f.deck_synergy_score / total
      elixir_efficiency := f.elixir_efficiency / total
      opponent_counter := f.opponent_counter_score / total
      player_skill := f.skill_rating / total
      recent_performance := f.recent_win_rate / total }
  else
    { deck_synergy := f.deck_synergy_score
      elixir_efficiency := f.elixir_efficiency
      opponent_counter := f.opponent_counter_score
      player_skill := f.skill_rating
      recent_performance := f.recent_win_rate }

/-- Sum of the five weights of a `Factors` value. -/
def Factors.total (w : Factors) : ℚ :=
  w.deck_synergy + w.elixir_efficiency + w.opponent_counter +
  w.player_skill + w.recent_performance

/-- Full `_generate_recommendations` (predictor.py lines 247-281): the
three probability bands with the synergy warning, then the elixir-curve
advice; note the source applies no length cap. -/
def generateRecommendations (features : FeatureSet) (win_probability : ℚ) :
    List String :=
  let recommendations : List String :=
    if win_probability < 2/5 then
      ["Consider a more defensive strategy",
       "Focus on positive elixir trades"] ++
      (if features.deck_synergy_score < 1/2 then
        ["Your deck synergy is low - consider card substitutions"]
       else [])
    else if win_probability > 7/10 then
      ["You have a strong advantage - maintain pressure",
       "Look for opportunities to take towers"]
    else
      ["Match is balanced - adapt to opponent\x27s strategy",
       "Monitor elixir carefully"]
  recommendations ++
    (if features.average_elixir_cost > 4 then
      ["Heavy deck - be patient with elixir management"]
     else if features.average_elixir_cost < 3 then
      ["Fast cycle deck - maintain constant pressure"]
     else [])

/-- Full `_generate_live_recommendations` (predictor.py lines 314-352):
phase-dispatched advice; no trailing elixir reminder is appended. The
`features` argument is unused in the source body and kept for the
signature. -/
def generateLiveRecommendations (_features : FeatureSet)
    (win_probability : ℚ) (battle_data : BattleData) : List String :=
  let battle_phase := determineBattlePhase battle_data.time_remaining
  let towers_down : ℤ := 3 - battle_data.player_towers
  let opponent_towers_down : ℤ := 3 - battle_data.opponent_towers
  if battle_phase = "early_game" then
    ["Focus on learning opponent\x27s deck", "Make positive elixir trades"]
  else if battle_phase = "mid_game" then
    if win_probability > 3/5 then ["Build a strong push"]
    else ["Defend and counter-attack"]
  else if battle_phase = "late_game" then
    if towers_down > opponent_towers_down then
      ["Play defensively - protect your lead"]
    else ["Time for aggressive plays"]
  else if battle_phase = "overtime" then
    ["High-risk, high-reward plays", "Focus on tower damage"]
  else []

/-- Result record of the full `predict` (predictor.py lines 121-129). -/
structure FullPrediction where
  win_probability : ℚ
  confidence : ℚ
  influencing_factors : Factors
  recommendations : List String
deriving DecidableEq, Repr

/-- Full `predict` entry point (predictor.py lines 87-133): the
readiness gate, then scoring and assembly. The learned model and feature
extractor live outside `src/`, so the extracted `FeatureSet` and the
scalar model output `model_out` (the value `float(prediction_raw[0][0])`)
are taken as parameters. -/
def fullPredict (s : PredictorState) (features : FeatureSet)
    (model_out : ℚ) : Except PredictError FullPrediction :=
  if s.is_ready then
    .ok { win_probability := model_out
          confidence := calculateConfidence model_out
          influencing_factors := analyzeInfluencingFactors features
          recommendations := generateRecommendations features model_out }
  else .error .engineNotReady

/-- Result record of the full `predict_live` (predictor.py lines
165-172), with the `battle_analysis` fields flattened. -/
structure FullLivePrediction where
  win_probability : ℚ
  confidence : ℚ
  battle_time_remaining : ℤ
  player_towers : ℤ
  opponent_towers : ℤ
  elixir_advantage : ℤ
  current_phase : String
  recommendations : List String
deriving DecidableEq, Repr

/-- Full `predict_live` entry point (predictor.py lines 135-176): the
readiness gate, scoring, `_analyze_battle_state` and live
recommendations; the learned-model output is a parameter as in
`fullPredict`. -/
def fullPredictLive (s : PredictorState) (features : FeatureSet)
    (model_out : ℚ) (battle_data : BattleData) :
    Except PredictError FullLivePrediction :=
  if s.is_ready then
    .ok { win_probability := model_out
          confidence := calculateConfidence model_out
          battle_time_remaining := battle_data.time_remaining
          player_towers := battle_data.player_towers
          opponent_towers := battle_data.opponent_towers
          elixir_advantage := battle_data.elixir_advantage
          current_phase := determineBattlePhase battle_data.time_remaining
          recommendations :=
            generateLiveRecommendations features model_out battle_data }
  else .error .engineNotReady

end ClashVision

namespace ClashVision

/-- Claim C3: the battle-phase classification returns early_game iff
t > 120, mid_game iff 60 < t <= 120, late_game iff 0 < t <= 60, and
overtime iff t <= 0; the four phases are exhaustive and mutually
exclusive by these characterizations. -/
theorem battlePhase_classification (t : ℤ) :
    (determineBattlePhase t = "early_game" ↔ 120 < t) ∧
    (determineBattlePhase t = "mid_game" ↔ 60 < t ∧ t ≤ 120) ∧
    (determineBattlePhase t = "late_game" ↔ 0 < t ∧ t ≤ 60) ∧
    (determineBattlePhase t = "overtime" ↔ t ≤ 0) := by
  unfold determineBattlePhase
  split_ifs with h1 h2 h3 <;>
    refine ⟨?_, ?_, ?_, ?_⟩ <;> simp +decide <;> omega

/-- Boundary witnesses for the phase classification. -/
theorem battlePhase_classification_witness :
    determineBattlePhase 150 = "early_game" ∧
    determineBattlePhase 120 = "mid_game" ∧
    determineBattlePhase 60 = "late_game" ∧
    determineBattlePhase 0 = "overtime" :=
  ⟨(battlePhase_classification 150).1.mpr (by omega),
   (battlePhase_classification 120).2.1.mpr (by omega),
   (battlePhase_classification 60).2.2.1.mpr (by omega),
   (battlePhase_classification 0).2.2.2.mpr (by omega)⟩

/-- Claim C9: the feature computations are total — the win-rate divisor
max(1, wins+losses) is never zero (so win-rate is a well-defined value in
[0,1] even with zero recorded battles), and trophy-factor never exceeds 1
even above the 6000 cap. -/
theorem feature_totality (w l t : ℕ) :
    ((max 1 (w + l) : ℕ) : ℚ) ≠ 0 ∧
    winRate w l = (w : ℚ) / ((max 1 (w + l) : ℕ) : ℚ) ∧
    0 ≤ winRate w l ∧ winRate w l ≤ 1 ∧
    trophyFactor t ≤ 1 := by
  have hpos : 0 < max 1 (w + l) := lt_of_lt_of_le Nat.zero_lt_one (le_max_left _ _)
  have hq : (0 : ℚ) < ((max 1 (w + l) : ℕ) : ℚ) := by exact_mod_cast hpos
  refine ⟨ne_of_gt hq, rfl, ?_, ?_, min_le_left _ _⟩
  · exact div_nonneg (Nat.cast_nonneg _) (le_of_lt hq)
  · rw [winRate, div_le_one hq]
    exact_mod_cast le_trans (Nat.le_add_right w l) (le_max_right 1 (w + l))

/-- Claim C10: in the simple live prediction, win_probability and
confidence do not depend on the player tag or the battle data — only on
the ambient random draws. -/
theorem live_prediction_ignores_inputs (tag1 tag2 : String)
    (b1 b2 : BattleData) (d : LiveDraws) :
    (simplePredictLive tag1 b1 d).win_probability =
      (simplePredictLive tag2 b2 d).win_probability ∧
    (simplePredictLive tag1 b1 d).confidence =
      (simplePredictLive tag2 b2 d).confidence :=
  ⟨rfl, rfl⟩

/-- Claim C1 evaluation: at the player of the spec (wins 70, losses 30,
trophies 5000) the heuristic path of the code does not return the claimed
noise-free values — with the ambient draws at 0 the probability is
181/300, not the claimed 113/150 (0.7533...), the confidence is 3/5, not
the claimed 38/75 (0.5066...), and the maintain-pressure advice is
absent; the claimed probability is only reached at the midpoint noise
draw 1/2. -/
theorem heuristic_predict_eval_at_spec_player :
    (simplePredictCore ⟨5000, 70, 30⟩ ⟨0, 0, 0, 0, 0, 0, 0⟩).win_rate = 7/10 ∧
    (simplePredictCore ⟨5000, 70, 30⟩ ⟨0, 0, 0, 0, 0, 0, 0⟩).trophy_factor = 5/6 ∧
    (simplePredictCore ⟨5000, 70, 30⟩ ⟨0, 0, 0, 0, 0, 0, 0⟩).win_probability = 181/300 ∧
    (181 : ℚ)/300 ≠ 113/150 ∧
    (simplePredictCore ⟨5000, 70, 30⟩ ⟨0, 0, 0, 0, 0, 0, 0⟩).confidence = 3/5 ∧
    (3 : ℚ)/5 ≠ 38/75 ∧
    "Maintain aggressive pressure" ∉
      (simplePredictCore ⟨5000, 70, 30⟩ ⟨0, 0, 0, 0, 0, 0, 0⟩).recommendations ∧
    (simplePredictCore ⟨5000, 70, 30⟩ ⟨1/2, 0, 0, 0, 0, 0, 0⟩).win_probability = 113/150 := by
  simp only [simplePredictCore, winRate, trophyFactor, uniformDraw,
    simpleGenerateRecommendations, extraRecommendationPool]
  norm_num [min_def, max_def]
  simp

/-- Claim C2 evaluation: the heuristic predict is not deterministic in
its input alone — two calls on the identical player with different
ambient noise draws return different win probabilities. -/
theorem heuristic_predict_randomness :
    (simplePredictCore ⟨5000, 70, 30⟩ ⟨0, 0, 0, 0, 0, 0, 0⟩).win_probability ≠
      (simplePredictCore ⟨5000, 70, 30⟩ ⟨1, 0, 0, 0, 0, 0, 0⟩).win_probability := by
  simp only [simplePredictCore, winRate, trophyFactor]
  norm_num [min_def, max_def]

/-- Claim C5 evaluation: the confidence returned by the simple predictor is
0.6 + 0.3*draw, not clamp(0,1, 2*|p-0.5|) — at the zero-battle player
with zero draws the probability is 1/10, the claimed formula gives 4/5,
but the code returns 3/5; likewise predict_live at the midpoint draw has
probability 1/2, claimed confidence 0, returned confidence 3/5. -/
theorem confidence_formula_mismatch :
    (simplePredictCore ⟨0, 0, 0⟩ ⟨0, 0, 0, 0, 0, 0, 0⟩).win_probability = 1/10 ∧
    calculateConfidence ((simplePredictCore ⟨0, 0, 0⟩ ⟨0, 0, 0, 0, 0, 0, 0⟩).win_probability) = 4/5 ∧
    (simplePredictCore ⟨0, 0, 0⟩ ⟨0, 0, 0, 0, 0, 0, 0⟩).confidence = 3/5 ∧
    (3 : ℚ)/5 ≠ 4/5 ∧
    (simplePredictLive "PLAYER" ⟨180, 3, 3, 0⟩ ⟨1/2, 0, 0⟩).win_probability = 1/2 ∧
    calculateConfidence ((simplePredictLive "PLAYER" ⟨180, 3, 3, 0⟩ ⟨1/2, 0, 0⟩).win_probability) = 0 ∧
    (simplePredictLive "PLAYER" ⟨180, 3, 3, 0⟩ ⟨1/2, 0, 0⟩).confidence = 3/5 ∧
    (3 : ℚ)/5 ≠ 0 := by
  simp only [simplePredictCore, simplePredictLive, winRate, trophyFactor,
    uniformDraw, calculateConfidence]
  norm_num [min_def, max_def, abs]

/-- States of the simple predictor reachable through its lifecycle:
construction followed by any number of initialize calls. -/
inductive SimpleReachable : PredictorState → Prop where
  | construct : SimpleReachable mkSimplePredictor
  | next : ∀ s, SimpleReachable s → SimpleReachable (initializeSimple s)

/-- Claim C8: predict and predict_live of the full predictor fail with
EngineNotReady exactly when the backend is not initialized, and the
simple (heuristic) predictor is ready in every reachable state, so its
predict never fails with EngineNotReady (predict_live performs no
readiness check at all and returns a plain result). -/
theorem engine_readiness (s t : PredictorState) (p : PlayerData)
    (d : Draws) (f : FeatureSet) (m : ℚ) (b : BattleData) :
    (fullPredict t f m = Except.error PredictError.engineNotReady ↔
      t.is_ready = false) ∧
    (fullPredictLive t f m b = Except.error PredictError.engineNotReady ↔
      t.is_ready = false) ∧
    (SimpleReachable s → s.is_ready = true ∧
      simplePredict s p d = Except.ok (simplePredictCore p d)) := by
  obtain ⟨tr⟩ := t
  refine ⟨?_, ?_, ?_⟩
  · cases tr <;> simp [fullPredict]
  · cases tr <;> simp [fullPredictLive]
  · intro h
    cases h with
    | construct => exact ⟨rfl, rfl⟩
    | next s hs => exact ⟨rfl, rfl⟩

/-- Witness for the readiness characterization: the freshly constructed
full predictor rejects with EngineNotReady, and the freshly constructed
simple predictor succeeds. -/
theorem engine_readiness_witness :
    (fullPredict mkFullPredictor ⟨0, 0, 0, 0, 0, 0⟩ (1/2) =
      Except.error PredictError.engineNotReady) ∧
    (mkSimplePredictor.is_ready = true ∧
      simplePredict mkSimplePredictor ⟨0, 0, 0⟩ ⟨0, 0, 0, 0, 0, 0, 0⟩ =
        Except.ok (simplePredictCore ⟨0, 0, 0⟩ ⟨0, 0, 0, 0, 0, 0, 0⟩)) :=
  ⟨(engine_readiness mkSimplePredictor mkFullPredictor ⟨0, 0, 0⟩
      ⟨0, 0, 0, 0, 0, 0, 0⟩ ⟨0, 0, 0, 0, 0, 0⟩ (1/2) ⟨0, 3, 3, 0⟩).1.mpr rfl,
   (engine_readiness mkSimplePredictor mkFullPredictor ⟨0, 0, 0⟩
      ⟨0, 0, 0, 0, 0, 0, 0⟩ ⟨0, 0, 0, 0, 0, 0⟩ (1/2) ⟨0, 3, 3, 0⟩).2.2
      SimpleReachable.construct⟩

/-- Claim C4 counterexample: on a feature set with a negative
deck-synergy signal the code divides the signed value (not its absolute
value) by the sum of absolute values, so the returned weight is negative
and the weights neither sum to 1 nor are all zero. -/
theorem factor_attribution_cex :
    (analyzeInfluencingFactors ⟨-1, 0, 0, 0, 0, 0⟩).deck_synergy < 0 ∧
    (analyzeInfluencingFactors ⟨-1, 0, 0, 0, 0, 0⟩).total ≠ 1 ∧
    ¬ ((analyzeInfluencingFactors ⟨-1, 0, 0, 0, 0, 0⟩).deck_synergy = 0 ∧
       (analyzeInfluencingFactors ⟨-1, 0, 0, 0, 0, 0⟩).elixir_efficiency = 0 ∧
       (analyzeInfluencingFactors ⟨-1, 0, 0, 0, 0, 0⟩).opponent_counter = 0 ∧
       (analyzeInfluencingFactors ⟨-1, 0, 0, 0, 0, 0⟩).player_skill = 0 ∧
       (analyzeInfluencingFactors ⟨-1, 0, 0, 0, 0, 0⟩).recent_performance = 0) := by
  simp only [analyzeInfluencingFactors, Factors.total]
  norm_num [abs]

/-- Claim C4 as amended: the attribution returns exactly the five fixed
weights, never divides by zero, and whenever the five signals are
non-negative (the feature ranges of the spec) the weights are non-negative and
either sum to exactly 1 or, when every signal is zero, are all zero. -/
theorem factor_attribution_normalized (f : FeatureSet)
    (h1 : 0 ≤ f.deck_synergy_score) (h2 : 0 ≤ f.elixir_efficiency)
    (h3 : 0 ≤ f.opponent_counter_score) (h4 : 0 ≤ f.skill_rating)
    (h5 : 0 ≤ f.recent_win_rate) :
    (0 ≤ (analyzeInfluencingFactors f).deck_synergy ∧
     0 ≤ (analyzeInfluencingFactors f).elixir_efficiency ∧
     0 ≤ (analyzeInfluencingFactors f).opponent_counter ∧
     0 ≤ (analyzeInfluencingFactors f).player_skill ∧
     0 ≤ (analyzeInfluencingFactors f).recent_performance) ∧
    ((analyzeInfluencingFactors f).total = 1 ∨
     ((analyzeInfluencingFactors f).deck_synergy = 0 ∧
      (analyzeInfluencingFactors f).elixir_efficiency = 0 ∧
      (analyzeInfluencingFactors f).opponent_counter = 0 ∧
      (analyzeInfluencingFactors f).player_skill = 0 ∧
      (analyzeInfluencingFactors f).recent_performance = 0)) := by
  have e1 : |f.deck_synergy_score| = f.deck_synergy_score := abs_of_nonneg h1
  have e2 : |f.elixir_efficiency| = f.elixir_efficiency := abs_of_nonneg h2
  have e3 : |f.opponent_counter_score| = f.opponent_counter_score := abs_of_nonneg h3
  have e4 : |f.skill_rating| = f.skill_rating := abs_of_nonneg h4
  have e5 : |f.recent_win_rate| = f.recent_win_rate := abs_of_nonneg h5
  simp only [analyzeInfluencingFactors, Factors.total, e1, e2, e3, e4, e5]
  split_ifs with hT
  · refine ⟨⟨?_, ?_, ?_, ?_, ?_⟩, Or.inl ?_⟩ <;>
      first
        | exact div_nonneg (by assumption) (le_of_lt hT)
        | (rw [div_add_div_same, div_add_div_same, div_add_div_same,
             div_add_div_same]
           exact div_self (ne_of_gt hT))
  · push_neg at hT
    have z1 : f.deck_synergy_score = 0 := by linarith
    have z2 : f.elixir_efficiency = 0 := by linarith
    have z3 : f.opponent_counter_score = 0 := by linarith
    have z4 : f.skill_rating = 0 := by linarith
    have z5 : f.recent_win_rate = 0 := by linarith
    exact ⟨⟨h1, h2, h3, h4, h5⟩, Or.inr ⟨z1, z2, z3, z4, z5⟩⟩

/-- Witness for the amended attribution claim at a concrete feature set
with two equal positive signals: both weights are 1/2 and the total is
exactly 1. -/
theorem factor_attribution_witness :
    (0 ≤ (analyzeInfluencingFactors ⟨1/2, 1/2, 0, 0, 0, 0⟩).deck_synergy ∧
     0 ≤ (analyzeInfluencingFactors ⟨1/2, 1/2, 0, 0, 0, 0⟩).elixir_efficiency ∧
     0 ≤ (analyzeInfluencingFactors ⟨1/2, 1/2, 0, 0, 0, 0⟩).opponent_counter ∧
     0 ≤ (analyzeInfluencingFactors ⟨1/2, 1/2, 0, 0, 0, 0⟩).player_skill ∧
     0 ≤ (analyzeInfluencingFactors ⟨1/2, 1/2, 0, 0, 0, 0⟩).recent_performance) ∧
    ((analyzeInfluencingFactors ⟨1/2, 1/2, 0, 0, 0, 0⟩).total = 1 ∨
     ((analyzeInfluencingFactors ⟨1/2, 1/2, 0, 0, 0, 0⟩).deck_synergy = 0 ∧
      (analyzeInfluencingFactors ⟨1/2, 1/2, 0, 0, 0, 0⟩).elixir_efficiency = 0 ∧
      (analyzeInfluencingFactors ⟨1/2, 1/2, 0, 0, 0, 0⟩).opponent_counter = 0 ∧
      (analyzeInfluencingFactors ⟨1/2, 1/2, 0, 0, 0, 0⟩).player_skill = 0 ∧
      (analyzeInfluencingFactors ⟨1/2, 1/2, 0, 0, 0, 0⟩).recent_performance = 0)) :=
  factor_attribution_normalized ⟨1/2, 1/2, 0, 0, 0, 0⟩
    (by norm_num) (by norm_num) (by norm_num) (by norm_num) (by norm_num)

/-- Claim C6 counterexample: in the full predictor, the snapshot
recommendations are not capped at 3 items — a low-probability request
with low deck synergy and a heavy elixir curve yields 4 items. -/
theorem snapshot_recommendations_cap_cex :
    ¬ ((generateRecommendations ⟨3/10, 0, 0, 0, 0, 9/2⟩ (1/5)).length ≤ 3) := by
  simp only [generateRecommendations]
  norm_num

/-- Claim C6 as amended: the snapshot list has at most 4 items (the
source enforces no 3-item cap), and the probability bands hold as
stated — below 0.4 defensive advice plus a synergy warning when
deck-synergy-score < 0.5, above 0.7 pressure advice, otherwise balanced
advice — with elixir-curve advice appended when average-elixir-cost
exceeds 4.0 or is below 3.0. -/
theorem snapshot_recommendations_bands (f : FeatureSet) (p : ℚ) :
    (generateRecommendations f p).length ≤ 4 ∧
    (p < 2/5 →
      "Consider a more defensive strategy" ∈ generateRecommendations f p ∧
      (f.deck_synergy_score < 1/2 →
        "Your deck synergy is low - consider card substitutions" ∈
          generateRecommendations f p)) ∧
    (p > 7/10 →
      "You have a strong advantage - maintain pressure" ∈
        generateRecommendations f p) ∧
    (2/5 ≤ p → p ≤ 7/10 →
      "Match is balanced - adapt to opponent\x27s strategy" ∈
        generateRecommendations f p) ∧
    (f.average_elixir_cost > 4 →
      "Heavy deck - be patient with elixir management" ∈
        generateRecommendations f p) ∧
    (f.average_elixir_cost < 3 →
      "Fast cycle deck - maintain constant pressure" ∈
        generateRecommendations f p) := by
  unfold generateRecommendations
  split_ifs with h1 h2 h3 h4 h5 h6 <;>
    refine ⟨by simp, ?_, ?_, ?_, ?_, ?_⟩ <;> intros <;> simp_all <;> linarith

/-- Witness for the amended snapshot claim at the 4-item input: length
at most 4 with the defensive, synergy and heavy-deck items present. -/
theorem snapshot_recommendations_witness :
    (generateRecommendations ⟨3/10, 0, 0, 0, 0, 9/2⟩ (1/5)).length ≤ 4 ∧
    "Consider a more defensive strategy" ∈
      generateRecommendations ⟨3/10, 0, 0, 0, 0, 9/2⟩ (1/5) ∧
    "Your deck synergy is low - consider card substitutions" ∈
      generateRecommendations ⟨3/10, 0, 0, 0, 0, 9/2⟩ (1/5) ∧
    "Heavy deck - be patient with elixir management" ∈
      generateRecommendations ⟨3/10, 0, 0, 0, 0, 9/2⟩ (1/5) :=
  ⟨(snapshot_recommendations_bands ⟨3/10, 0, 0, 0, 0, 9/2⟩ (1/5)).1,
   ((snapshot_recommendations_bands ⟨3/10, 0, 0, 0, 0, 9/2⟩ (1/5)).2.1
      (by norm_num)).1,
   ((snapshot_recommendations_bands ⟨3/10, 0, 0, 0, 0, 9/2⟩ (1/5)).2.1
      (by norm_num)).2 (by norm_num),
   (snapshot_recommendations_bands ⟨3/10, 0, 0, 0, 0, 9/2⟩ (1/5)).2.2.2.2.1
      (by norm_num)⟩

/-- Claim C7 counterexample: the live recommendations of the full predictor
do not end with a generic elixir-management reminder — in overtime the
list is the two high-risk items and contains no elixir reminder. -/
theorem live_recommendations_cex :
    (generateLiveRecommendations ⟨0, 0, 0, 0, 0, 0⟩ (1/2) ⟨0, 3, 3, 0⟩).getLast? =
      some ("Focus on tower damage") ∧
    "Watch your elixir management" ∉
      generateLiveRecommendations ⟨0, 0, 0, 0, 0, 0⟩ (1/2) ⟨0, 3, 3, 0⟩ := by
  simp [generateLiveRecommendations, determineBattlePhase]

/-- Claim C7 as amended: the live recommendations of the full predictor are
exactly phase-specific — early_game scouting advice, mid_game a push or
defend branch on probability > 0.6, late_game a lead-protection or
aggression branch on the tower-count comparison, overtime high-risk
advice — with no trailing reminder, while the live list of the simple
predictor always ends with the elixir-management reminder. -/
theorem live_recommendations_phases (f : FeatureSet) (p : ℚ)
    (b : BattleData) :
    (120 < b.time_remaining →
      generateLiveRecommendations f p b =
        ["Focus on learning opponent\x27s deck", "Make positive elixir trades"]) ∧
    (60 < b.time_remaining → b.time_remaining ≤ 120 →
      generateLiveRecommendations f p b =
        (if p > 3/5 then ["Build a strong push"]
         else ["Defend and counter-attack"])) ∧
    (0 < b.time_remaining → b.time_remaining ≤ 60 →
      generateLiveRecommendations f p b =
        (if 3 - b.player_towers > 3 - b.opponent_towers then
          ["Play defensively - protect your lead"]
         else ["Time for aggressive plays"])) ∧
    (b.time_remaining ≤ 0 →
      generateLiveRecommendations f p b =
        ["High-risk, high-reward plays", "Focus on tower damage"]) ∧
    (simpleGenerateLiveRecommendations p b).getLast? =
      some ("Watch your elixir management") := by
  unfold generateLiveRecommendations determineBattlePhase
    simpleGenerateLiveRecommendations
  refine ⟨?_, ?_, ?_, ?_, rfl⟩ <;> intros <;> split_ifs <;> simp_all <;> omega

/-- Witness for the amended live claim: in overtime the full predictor
returns exactly the high-risk pair, and the simple live list ends with
the reminder. -/
theorem live_recommendations_witness :
    generateLiveRecommendations ⟨0, 0, 0, 0, 0, 0⟩ (1/2) ⟨0, 3, 3, 0⟩ =
      ["High-risk, high-reward plays", "Focus on tower damage"] ∧
    (simpleGenerateLiveRecommendations (1/2) ⟨0, 3, 3, 0⟩).getLast? =
      some ("Watch your elixir management") :=
  ⟨(live_recommendations_phases ⟨0, 0, 0, 0, 0, 0⟩ (1/2) ⟨0, 3, 3, 0⟩).2.2.2.1
      (by norm_num),
   (live_recommendations_phases ⟨0, 0, 0, 0, 0, 0⟩ (1/2) ⟨0, 3, 3, 0⟩).2.2.2.2⟩

/-- Witness for the totality claim at the zero-battle player and an
above-cap trophy count. -/
theorem feature_totality_witness :
    ((max 1 (0 + 0) : ℕ) : ℚ) ≠ 0 ∧
    winRate 0 0 = ((0 : ℕ) : ℚ) / ((max 1 (0 + 0) : ℕ) : ℚ) ∧
    0 ≤ winRate 0 0 ∧ winRate 0 0 ≤ 1 ∧
    trophyFactor 7000 ≤ 1 :=
  feature_totality 0 0 7000

/-- Witness for the input-independence of the simple live prediction at
two different tags and battle states sharing one draw triple. -/
theorem live_prediction_ignores_inputs_witness :
    (simplePredictLive "AAA" ⟨180, 3, 3, 0⟩ ⟨1/2, 1/2, 0⟩).win_probability =
      (simplePredictLive "BBB" ⟨0, 1, 2, 1⟩ ⟨1/2, 1/2, 0⟩).win_probability ∧
    (simplePredictLive "AAA" ⟨180, 3, 3, 0⟩ ⟨1/2, 1/2, 0⟩).confidence =
      (simplePredictLive "BBB" ⟨0, 1, 2, 1⟩ ⟨1/2, 1/2, 0⟩).confidence :=
  live_prediction_ignores_inputs "AAA" "BBB" ⟨180, 3, 3, 0⟩ ⟨0, 1, 2, 1⟩
    ⟨1/2, 1/2, 0⟩

end ClashVision
